import Mathlib

/-!
Shallow embedding of the aggregation and risk-classification logic of the
WHO ambient air-quality dashboard (src/utils.py and src/page_dashboard.py).

Floating-point concentration values are modelled as `Option ℚ`: `none` stands
for a missing value (NaN in the source, produced by pandas numeric coercion),
`some x` for the finite float `x`.  Library calls of the source that can raise
(pandas idxmax on an empty series, numpy nanmax on a zero-size array) are
modelled with `Except String`, the error text echoing the exception message of
the library call.
-/

namespace AirQuality

/-- One row of the loaded table: the identifying columns plus the three
nullable pollutant concentrations (data model of the spec; the column set
checked by ensure_columns in src/utils.py). -/
structure Row where
  who_region : Option String
  iso3 : String
  country_name : String
  year : Int
  pm25_concentration : Option ℚ
  pm10_concentration : Option ℚ
  no2_concentration : Option ℚ
  deriving DecidableEq, Repr

/-- The three pollutant column names used by the dashboard
(pollutant_map in src/page_dashboard.py). -/
def pollutantCols : List String :=
  ["pm25_concentration", "pm10_concentration", "no2_concentration"]

/-- Column access row[pollutant_col] for the three pollutant columns. -/
def colValue (pollutant_col : String) (r : Row) : Option ℚ :=
  if pollutant_col = "pm25_concentration" then r.pm25_concentration
  else if pollutant_col = "pm10_concentration" then r.pm10_concentration
  else if pollutant_col = "no2_concentration" then r.no2_concentration
  else none

/-- WHO_LIMITS dict of src/page_dashboard.py: pollutant column to WHO annual
guideline value; `none` models a missing dictionary key. -/
def WHO_LIMITS (pollutant_col : String) : Option ℚ :=
  if pollutant_col = "pm25_concentration" then some 5
  else if pollutant_col = "pm10_concentration" then some 15
  else if pollutant_col = "no2_concentration" then some 10
  else none

/-- risk_badge of src/utils.py: emoji badge plus label from WHO thresholds.
The numpy isnan guard at the top is the `none` case. -/
def risk_badge (value : Option ℚ) (pollutant_col : String) : String :=
  match value with
  | none => "⚪ N/A"
  | some x =>
    if pollutant_col = "pm25_concentration" then
      if x ≤ 5 then "🟢 Safe" else if x ≤ 15 then "🟡 Moderate"
      else if x ≤ 35 then "🟠 High" else "🔴 Very high"
    else if pollutant_col = "pm10_concentration" then
      if x ≤ 15 then "🟢 Safe" else if x ≤ 30 then "🟡 Moderate"
      else if x ≤ 50 then "🟠 High" else "🔴 Very high"
    else if pollutant_col = "no2_concentration" then
      if x ≤ 10 then "🟢 Safe" else if x ≤ 20 then "🟡 Moderate"
      else if x ≤ 40 then "🟠 High" else "🔴 Very high"
    else "⚪"

/-- The private tier function of src/utils.py: the WHO-based risk label,
same breakpoints as the cards, without the emoji. -/
def _risk_tier (value : Option ℚ) (pollutant_col : String) : String :=
  match value with
  | none => "N/A"
  | some v =>
    if pollutant_col = "pm25_concentration" then
      if v ≤ 5 then "Safe" else if v ≤ 15 then "Moderate"
      else if v ≤ 35 then "High" else "Very high"
    else if pollutant_col = "pm10_concentration" then
      if v ≤ 15 then "Safe" else if v ≤ 30 then "Moderate"
      else if v ≤ 50 then "High" else "Very high"
    else if pollutant_col = "no2_concentration" then
      if v ≤ 10 then "Safe" else if v ≤ 20 then "Moderate"
      else if v ≤ 40 then "High" else "Very high"
    else "N/A"

/-- Severity rank of the ordered tiers Safe, Moderate, High, Very high; used
to state the monotonicity property of the spec. -/
def riskSeverity : String → Nat
  | "Moderate" => 1
  | "High" => 2
  | "Very high" => 3
  | _ => 0

/-- Emoji that risk_badge pairs with each tier label, the white circle
standing for the missing-value badge. -/
def tierEmoji : String → String
  | "Safe" => "🟢"
  | "Moderate" => "🟡"
  | "High" => "🟠"
  | "Very high" => "🔴"
  | _ => "⚪"

/-- times_above_who of src/page_dashboard.py: the ratio value over WHO limit
shown on the KPI card. The source returns an em-dash for a null value and
otherwise formats this ratio to one decimal; the ratio itself is modelled
here, the display formatting being presentation. -/
def times_above_who (value : Option ℚ) (pollutant_col : String) : Option ℚ :=
  match value with
  | none => none
  | some v => (WHO_LIMITS pollutant_col).map (fun limit => v / limit)

/-- Unfolding of the tier function at the PM2.5 column. -/
theorem risk_tier_pm25_eq (v : ℚ) :
    _risk_tier (some v) "pm25_concentration" =
      if v ≤ 5 then "Safe" else if v ≤ 15 then "Moderate"
      else if v ≤ 35 then "High" else "Very high" := rfl

/-- Unfolding of the tier function at the PM10 column. -/
theorem risk_tier_pm10_eq (v : ℚ) :
    _risk_tier (some v) "pm10_concentration" =
      if v ≤ 15 then "Safe" else if v ≤ 30 then "Moderate"
      else if v ≤ 50 then "High" else "Very high" := rfl

/-- Unfolding of the tier function at the NO2 column. -/
theorem risk_tier_no2_eq (v : ℚ) :
    _risk_tier (some v) "no2_concentration" =
      if v ≤ 10 then "Safe" else if v ≤ 20 then "Moderate"
      else if v ≤ 40 then "High" else "Very high" := rfl

/-- Unfolding of the badge function at the PM2.5 column. -/
theorem risk_badge_pm25_eq (v : ℚ) :
    risk_badge (some v) "pm25_concentration" =
      if v ≤ 5 then "🟢 Safe" else if v ≤ 15 then "🟡 Moderate"
      else if v ≤ 35 then "🟠 High" else "🔴 Very high" := rfl

/-- Unfolding of the badge function at the PM10 column. -/
theorem risk_badge_pm10_eq (v : ℚ) :
    risk_badge (some v) "pm10_concentration" =
      if v ≤ 15 then "🟢 Safe" else if v ≤ 30 then "🟡 Moderate"
      else if v ≤ 50 then "🟠 High" else "🔴 Very high" := rfl

/-- Unfolding of the badge function at the NO2 column. -/
theorem risk_badge_no2_eq (v : ℚ) :
    risk_badge (some v) "no2_concentration" =
      if v ≤ 10 then "🟢 Safe" else if v ≤ 20 then "🟡 Moderate"
      else if v ≤ 40 then "🟠 High" else "🔴 Very high" := rfl

/-- C1: classification returns the NA result on a null input (for both the
badge and the tier variant), and otherwise follows the pollutant-specific
breakpoints with inclusive upper bounds: PM2.5 Safe up to 5, Moderate up to
15, High up to 35, above that Very high; PM10 with 15, 30, 50; NO2 with 10,
20, 40. -/
theorem risk_tier_breakpoints (v : ℚ) :
    (∀ p : String, _risk_tier none p = "N/A") ∧
    (∀ p : String, risk_badge none p = "⚪ N/A") ∧
    ((v ≤ 5 → _risk_tier (some v) "pm25_concentration" = "Safe") ∧
     (5 < v → v ≤ 15 → _risk_tier (some v) "pm25_concentration" = "Moderate") ∧
     (15 < v → v ≤ 35 → _risk_tier (some v) "pm25_concentration" = "High") ∧
     (35 < v → _risk_tier (some v) "pm25_concentration" = "Very high")) ∧
    ((v ≤ 15 → _risk_tier (some v) "pm10_concentration" = "Safe") ∧
     (15 < v → v ≤ 30 → _risk_tier (some v) "pm10_concentration" = "Moderate") ∧
     (30 < v → v ≤ 50 → _risk_tier (some v) "pm10_concentration" = "High") ∧
     (50 < v → _risk_tier (some v) "pm10_concentration" = "Very high")) ∧
    ((v ≤ 10 → _risk_tier (some v) "no2_concentration" = "Safe") ∧
     (10 < v → v ≤ 20 → _risk_tier (some v) "no2_concentration" = "Moderate") ∧
     (20 < v → v ≤ 40 → _risk_tier (some v) "no2_concentration" = "High") ∧
     (40 < v → _risk_tier (some v) "no2_concentration" = "Very high")) := by
  refine ⟨fun p => rfl, fun p => rfl,
    ⟨?_, ?_, ?_, ?_⟩, ⟨?_, ?_, ?_, ?_⟩, ⟨?_, ?_, ?_, ?_⟩⟩ <;>
    intros <;>
    simp only [risk_tier_pm25_eq, risk_tier_pm10_eq, risk_tier_no2_eq] <;>
    split_ifs <;> first | rfl | linarith

/-- Witness for C1 at the concrete value 10 classified for PM2.5. -/
theorem risk_tier_breakpoints_w :
    _risk_tier (some 10) "pm25_concentration" = "Moderate" :=
  (risk_tier_breakpoints 10).2.2.1.2.1 (by norm_num) (by norm_num)

/-- C5: for each valid pollutant column the classification of a non-null
value is total with no undefined region (the result is always one of the four
ordered tiers, however negative or large the value), and its severity is
monotone non-decreasing in the value. -/
theorem risk_tier_total_monotone (p : String) (hp : p ∈ pollutantCols)
    (v v1 v2 : ℚ) (h12 : v1 ≤ v2) :
    _risk_tier (some v) p ∈ ["Safe", "Moderate", "High", "Very high"] ∧
    riskSeverity (_risk_tier (some v1) p) ≤
      riskSeverity (_risk_tier (some v2) p) := by
  fin_cases hp <;>
    constructor <;>
    simp only [risk_tier_pm25_eq, risk_tier_pm10_eq, risk_tier_no2_eq] <;>
    split_ifs <;>
    first
      | decide
      | linarith

/-- Witness for C5: PM2.5 severity at 3 is at most the severity at 20. -/
theorem risk_tier_total_monotone_w :
    riskSeverity (_risk_tier (some 3) "pm25_concentration") ≤
      riskSeverity (_risk_tier (some 20) "pm25_concentration") :=
  (risk_tier_total_monotone "pm25_concentration" (by decide) 3 3 20 (by norm_num)).2

/-- C9: the ratio to the guideline is NA exactly on a null value, and
otherwise is the raw quotient of the value by the WHO guideline of the
pollutant, with no clamping. -/
theorem times_above_who_ratio (p : String) (v : ℚ) :
    times_above_who none p = none ∧
    times_above_who (some v) "pm25_concentration" = some (v / 5) ∧
    times_above_who (some v) "pm10_concentration" = some (v / 15) ∧
    times_above_who (some v) "no2_concentration" = some (v / 10) :=
  ⟨rfl, rfl, rfl, rfl⟩

/-- C10: on the three pollutant columns the badge of risk_badge is exactly
the emoji of the tier of the private tier function followed by that tier
text, so the two classification variants agree on the label; on any other
column the non-null fallbacks differ: the badge is the bare white circle
while the tier function gives the NA label. -/
theorem risk_badge_refines_tier (p : String) (v : Option ℚ) :
    (p ∈ pollutantCols →
      risk_badge v p = tierEmoji (_risk_tier v p) ++ " " ++ _risk_tier v p) ∧
    (p ∉ pollutantCols → ∀ x : ℚ,
      risk_badge (some x) p = "⚪" ∧ _risk_tier (some x) p = "N/A") := by
  constructor
  · intro hp
    fin_cases hp <;> rcases v with _ | x <;>
      first
        | rfl
        | (simp only [risk_badge_pm25_eq, risk_badge_pm10_eq, risk_badge_no2_eq,
             risk_tier_pm25_eq, risk_tier_pm10_eq, risk_tier_no2_eq]
           split_ifs <;> rfl)
  · intro hp x
    simp only [pollutantCols, List.mem_cons, List.not_mem_nil, or_false,
      not_or] at hp
    obtain ⟨h1, h2, h3⟩ := hp
    exact ⟨by simp only [risk_badge, if_neg h1, if_neg h2, if_neg h3],
           by simp only [_risk_tier, if_neg h1, if_neg h2, if_neg h3]⟩

/-- Witness for C10 at PM2.5 and the concrete value 3. -/
theorem risk_badge_refines_tier_w :
    risk_badge (some 3) "pm25_concentration" =
      tierEmoji (_risk_tier (some 3) "pm25_concentration") ++ " " ++
        _risk_tier (some 3) "pm25_concentration" :=
  (risk_badge_refines_tier "pm25_concentration" (some 3)).1 (by decide)

/-- Error outcomes of the dashboard pipeline, named by the spec taxonomy:
MissingColumns at load time (st.error plus st.stop in ensure_columns),
InvalidSelection for an empty year selection (st.warning plus st.stop). -/
inductive DashboardError where
  | MissingColumns (missing : List String)
  | InvalidSelection
  deriving DecidableEq, Repr

/-- The required column set checked by ensure_columns in src/utils.py. -/
def neededColumns : List String :=
  ["who_region", "iso3", "country_name", "year",
   "pm25_concentration", "pm10_concentration", "no2_concentration"]

/-- ensure_columns of src/utils.py: collects the required columns absent from
the frame and halts with the missing list when any is missing, and otherwise
leaves everything untouched. -/
def ensure_columns (cols : List String) : Except DashboardError Unit :=
  let missing := neededColumns.filter (fun c => ! cols.contains c)
  if missing.isEmpty then Except.ok ()
  else Except.error (DashboardError.MissingColumns missing)

/-- The year and region row masks of src/page_dashboard.py and the frame dff
they select: the row year must be one of the selected years, and unless the
region choice is Global the row region must equal the selected region. The
pandas copy makes the result a fresh frame. -/
def filterRows (df : List Row) (selected_years : List Int) (region : String) :
    List Row :=
  df.filter (fun r =>
    decide (r.year ∈ selected_years) &&
    (region == "Global" || r.who_region == some region))

/-- Sidebar year guard of src/page_dashboard.py: an empty year selection
surfaces a warning and stops the script before anything further is computed,
modelled as the InvalidSelection error; otherwise the filtered frame is
produced. -/
def dashboardFilter (df : List Row) (selected_years : List Int)
    (region : String) : Except DashboardError (List Row) :=
  if selected_years.isEmpty then Except.error DashboardError.InvalidSelection
  else Except.ok (filterRows df selected_years region)

/-- Mean of a list of rationals, `none` on the empty list: models a pandas
mean over the non-null entries of a column, which is NaN when no entry
remains. -/
def meanOpt (xs : List ℚ) : Option ℚ :=
  if xs.isEmpty then none else some (xs.sum / xs.length)

/-- The non-null values of a pollutant column over a frame, in row order. -/
def validValues (df : List Row) (p : String) : List ℚ :=
  df.filterMap (colValue p)

/-- The country_mean series of src/page_dashboard.py: groupby country_name,
mean of the pollutant column per group, dropna. One value per distinct
country name having at least one non-null observation. -/
def countryMeans (df : List Row) (p : String) : List ℚ :=
  ((df.map Row.country_name).dedup).filterMap
    (fun c => meanOpt (validValues (df.filter (fun r => r.country_name == c)) p))

/-- pct_exceed of src/page_dashboard.py: NaN when no country has a valid
mean, otherwise 100 times the fraction of country means strictly above the
WHO limit of the pollutant. -/
def pct_exceed (df : List Row) (p : String) : Option ℚ :=
  let cm := countryMeans df p
  if cm.isEmpty then none
  else (WHO_LIMITS p).map (fun limit =>
    100 * (((cm.filter (fun v => decide (limit < v))).length : ℚ) / cm.length))

/-- pandas Series.idxmax on a pollutant column: raises on an empty series,
yields NaN (here `none`) when every value is null, and otherwise the index of
the first occurrence of the maximum value. -/
def idxmax (df : List Row) (p : String) : Except String (Option Nat) :=
  if df.isEmpty then
    Except.error "attempt to get argmax of an empty sequence"
  else
    match (validValues df p).max? with
    | none => Except.ok none
    | some m => Except.ok (some (df.findIdx (fun r => colValue p r == some m)))

/-- pandas Series.idxmin on a pollutant column: raises on an empty series,
yields NaN when every value is null, and otherwise the index of the first
occurrence of the minimum value. -/
def idxmin (df : List Row) (p : String) : Except String (Option Nat) :=
  if df.isEmpty then
    Except.error "attempt to get argmin of an empty sequence"
  else
    match (validValues df p).min? with
    | none => Except.ok none
    | some m => Except.ok (some (df.findIdx (fun r => colValue p r == some m)))

/-- numpy nanmax over the raw column values: raises on a zero-size array, NaN
(here `none`) when every entry is NaN, otherwise the largest non-null
value. -/
def nanmax (df : List Row) (p : String) : Except String (Option ℚ) :=
  if df.isEmpty then
    Except.error "zero-size array to reduction operation fmax which has no identity"
  else Except.ok (validValues df p).max?

/-- numpy nanmin over the raw column values: raises on a zero-size array, NaN
when every entry is NaN, otherwise the smallest non-null value. -/
def nanmin (df : List Row) (p : String) : Except String (Option ℚ) :=
  if df.isEmpty then
    Except.error "zero-size array to reduction operation fmin which has no identity"
  else Except.ok (validValues df p).min?

/-- annual_mean of src/page_dashboard.py: NaN on an empty frame (explicit
guard in the source), and the nanmean of the column values otherwise, itself
NaN when every value is null. -/
def annual_mean (df : List Row) (p : String) : Option ℚ :=
  if df.isEmpty then none else meanOpt (validValues df p)

/-- The KPI values the aggregate block of src/page_dashboard.py computes from
the filtered frame; fields follow the source variable names. -/
structure AggregateResult where
  annual_mean : Option ℚ
  pct_exceed : Option ℚ
  worst_country : Option String
  worst_value : Option ℚ
  worst_year : Option Int
  best_country : Option String
  best_value : Option ℚ
  best_year : Option Int
  worst_case_value : Option ℚ
  best_case_value : Option ℚ
  deriving DecidableEq, Repr

/-- The dff.at lookups guarded by pd.notna(idx) in the source: the country
name, the column value and the year of the row at the located index, all None
or NaN when the index itself is NaN. -/
def rowAt (df : List Row) (p : String) (idx : Option Nat) :
    Option String × Option ℚ × Option Int :=
  match idx with
  | none => (none, none, none)
  | some i =>
    match df[i]? with
    | none => (none, none, none)
    | some r => (some r.country_name, colValue p r, some r.year)

/-- aggregate: the straight-line KPI computation of src/page_dashboard.py
lines 70 to 101 on the filtered frame, threading the library calls that can
raise in source order (idxmax, then idxmin, then nanmax, then nanmin). -/
def aggregate (df : List Row) (p : String) : Except String AggregateResult := do
  let iMax ← idxmax df p
  let iMin ← idxmin df p
  let wcv ← nanmax df p
  let bcv ← nanmin df p
  return { annual_mean := annual_mean df p
           pct_exceed := pct_exceed df p
           worst_country := (rowAt df p iMax).1
           worst_value := (rowAt df p iMax).2.1
           worst_year := (rowAt df p iMax).2.2
           best_country := (rowAt df p iMin).1
           best_value := (rowAt df p iMin).2.1
           best_year := (rowAt df p iMin).2.2
           worst_case_value := wcv
           best_case_value := bcv }

/-- Sample rows used by the closed witnesses. -/
def rowA : Row :=
  ⟨some "Europe", "AAA", "A", 2019, some 10, some 20, some 12⟩

/-- Second sample row used by the closed witnesses. -/
def rowB : Row :=
  ⟨some "Africa", "BBB", "B", 2019, some 2, some 4, some 3⟩

/-- Sample row with every pollutant value null. -/
def rowN : Row :=
  ⟨some "Europe", "NNN", "N", 2020, none, none, none⟩

/-- Sample frame of two observed rows used by the closed witnesses. -/
def sampleRows : List Row := [rowA, rowB]

/-- C3: for a non-empty year selection, filtering keeps exactly the rows
whose year belongs to the selected set and whose region matches (anything
under Global, otherwise equality of the row region with the selection), as an
order-preserving subsequence of the input; the embedding is pure, matching
the pandas copy that leaves the input frame unmutated. -/
theorem filter_retains_exactly (df : List Row) (Y : List Int) (R : String)
    (hY : Y ≠ []) :
    (∀ r : Row, r ∈ filterRows df Y R ↔
      r ∈ df ∧ r.year ∈ Y ∧ (R = "Global" ∨ r.who_region = some R)) ∧
    (filterRows df Y R).Sublist df := by
  refine ⟨fun r => ?_, List.filter_sublist df⟩
  simp [filterRows, List.mem_filter, and_assoc]

/-- Witness for C3 on the sample frame: the filtered frame is a subsequence
of the input. -/
theorem filter_retains_exactly_w :
    (filterRows sampleRows [2019] "Global").Sublist sampleRows :=
  (filter_retains_exactly sampleRows [2019] "Global" (by decide)).2

/-- C7: an empty year selection makes the dashboard stop with the invalid
selection outcome, so no filtered frame and no aggregate is ever produced. -/
theorem empty_years_invalid_selection (df : List Row) (R : String) :
    dashboardFilter df [] R = Except.error DashboardError.InvalidSelection :=
  rfl

/-- Unfolding of the column check, the let binding expanded. -/
theorem ensure_columns_eq (cols : List String) :
    ensure_columns cols =
      if (neededColumns.filter (fun c => ! cols.contains c)).isEmpty
      then Except.ok ()
      else Except.error (DashboardError.MissingColumns
        (neededColumns.filter (fun c => ! cols.contains c))) := rfl

/-- C8: the load-time column check succeeds exactly when all seven required
columns are present, in which case nothing is altered and computation
proceeds; otherwise it fails with the missing-columns outcome carrying
exactly the absent required column names. -/
theorem ensure_columns_spec (cols : List String) :
    (ensure_columns cols = Except.ok () ↔ ∀ c ∈ neededColumns, c ∈ cols) ∧
    (∀ m, ensure_columns cols = Except.error (DashboardError.MissingColumns m) →
      ∀ c : String, c ∈ m ↔ c ∈ neededColumns ∧ c ∉ cols) := by
  have hmiss : ∀ c : String,
      (c ∈ neededColumns.filter (fun x => ! cols.contains x) ↔
        c ∈ neededColumns ∧ c ∉ cols) := by
    intro c
    simp [List.mem_filter, List.elem_iff]
  by_cases hemp : neededColumns.filter (fun x => ! cols.contains x) = []
  · rw [ensure_columns_eq, hemp]
    simp only [List.isEmpty_nil, if_true]
    constructor
    · simp only [true_iff]
      intro c hc
      by_contra hnc
      exact List.not_mem_nil c (hemp ▸ (hmiss c).mpr ⟨hc, hnc⟩)
    · intro m hm
      exact absurd hm (by simp)
  · rw [ensure_columns_eq, if_neg (by simpa [List.isEmpty_iff] using hemp)]
    constructor
    · constructor
      · intro h
        exact absurd h (by simp)
      · intro hall
        exfalso
        obtain ⟨c, hc⟩ := List.exists_mem_of_ne_nil _ hemp
        obtain ⟨h1, h2⟩ := (hmiss c).mp hc
        exact h2 (hall c h1)
    · intro m hm c
      simp only [Except.error.injEq, DashboardError.MissingColumns.injEq] at hm
      exact hm ▸ hmiss c

/-- Witness for C8: the check passes on the full required column list. -/
theorem ensure_columns_spec_w :
    ensure_columns neededColumns = Except.ok () :=
  (ensure_columns_spec neededColumns).1.mpr (by decide)

/-- C4 against the code: the spec demands NA on every aggregate field and no
crash for any subset with zero non-null pollutant values, the empty subset
included. On a non-empty all-null frame the aggregate block does produce NA
everywhere (second conjunct), but on the empty frame the pandas argmax call
raises instead of yielding a result (first conjunct), contradicting the
claim. -/
theorem aggregate_all_null_and_empty :
    aggregate ([] : List Row) "pm10_concentration" =
      Except.error "attempt to get argmax of an empty sequence" ∧
    aggregate [rowN] "pm10_concentration" =
      Except.ok ⟨none, none, none, none, none, none, none, none, none, none⟩ := by
  constructor <;> rfl

/-- The mean is NaN exactly on an empty value list. -/
theorem meanOpt_eq_none_iff (xs : List ℚ) : meanOpt xs = none ↔ xs = [] := by
  by_cases h : xs = []
  · subst h
    simp [meanOpt]
  · simp [meanOpt, List.isEmpty_iff, h]

/-- A country mean exists exactly when some row of the frame carries a value
for the pollutant. -/
theorem countryMeans_eq_nil_iff (df : List Row) (p : String) :
    countryMeans df p = [] ↔ validValues df p = [] := by
  constructor
  · intro h
    simp only [countryMeans, List.filterMap_eq_nil_iff] at h
    by_contra hv
    obtain ⟨x, hx⟩ := List.exists_mem_of_ne_nil _ hv
    simp only [validValues] at hx
    obtain ⟨r, hr, hrx⟩ := List.mem_filterMap.mp hx
    have hc : r.country_name ∈ (df.map Row.country_name).dedup :=
      List.mem_dedup.mpr (List.mem_map_of_mem _ hr)
    have hgroup : r ∈ df.filter (fun r2 => r2.country_name == r.country_name) :=
      List.mem_filter.mpr ⟨hr, by simp⟩
    have hxg : x ∈ validValues
        (df.filter (fun r2 => r2.country_name == r.country_name)) p := by
      simp only [validValues]
      exact List.mem_filterMap.mpr ⟨r, hgroup, hrx⟩
    have hnone := h _ hc
    rw [meanOpt_eq_none_iff] at hnone
    rw [hnone] at hxg
    exact List.not_mem_nil x hxg
  · intro hv
    simp only [countryMeans, List.filterMap_eq_nil_iff]
    intro c _
    rw [meanOpt_eq_none_iff]
    by_contra hne
    obtain ⟨x, hx⟩ := List.exists_mem_of_ne_nil _ hne
    simp only [validValues] at hx
    obtain ⟨r, hr, hrx⟩ := List.mem_filterMap.mp hx
    have hxa : x ∈ validValues df p := by
      simp only [validValues]
      exact List.mem_filterMap.mpr ⟨r, (List.mem_filter.mp hr).1, hrx⟩
    rw [hv] at hxa
    exact List.not_mem_nil x hxa

/-- Unfolding of pct_exceed, the let binding expanded. -/
theorem pct_exceed_eq (df : List Row) (p : String) :
    pct_exceed df p =
      if (countryMeans df p).isEmpty then none
      else (WHO_LIMITS p).map (fun limit =>
        100 * ((((countryMeans df p).filter
          (fun v => decide (limit < v))).length : ℚ) /
          (countryMeans df p).length)) := rfl

/-- C2: the percentage of countries exceeding the guideline is NA exactly
when no row of the subset carries a value for the pollutant, and otherwise is
100 times the fraction of countries, among those with at least one valid
value, whose per-country mean lies strictly above the WHO threshold of the
pollutant: 5 for PM2.5, 15 for PM10, 10 for NO2. -/
theorem pct_exceed_spec (df : List Row) (p : String) (t : ℚ)
    (hpt : (p, t) ∈ [("pm25_concentration", (5 : ℚ)),
      ("pm10_concentration", (15 : ℚ)), ("no2_concentration", (10 : ℚ))]) :
    (pct_exceed df p = none ↔ validValues df p = []) ∧
    (validValues df p ≠ [] →
      pct_exceed df p =
        some (100 * ((((countryMeans df p).countP
          (fun v => decide (t < v))) : ℚ) / (countryMeans df p).length))) := by
  have hlim : WHO_LIMITS p = some t := by
    fin_cases hpt <;> rfl
  constructor
  · rw [← countryMeans_eq_nil_iff]
    by_cases hcm : countryMeans df p = []
    · simp [pct_exceed_eq, hcm]
    · simp [pct_exceed_eq, List.isEmpty_iff, hcm, hlim]
  · intro hv
    have hcm : countryMeans df p ≠ [] := by
      rw [Ne, countryMeans_eq_nil_iff]
      exact hv
    rw [pct_exceed_eq, hlim, if_neg (by simpa [List.isEmpty_iff] using hcm)]
    rw [List.countP_eq_length_filter]
    rfl

/-- Witness for C2: a frame whose only row has a null PM2.5 value yields the
NA percentage. -/
theorem pct_exceed_spec_w :
    pct_exceed [rowN] "pm25_concentration" = none :=
  (pct_exceed_spec [rowN] "pm25_concentration" 5 (by decide)).1.mpr (by decide)

/-- C6: whenever the subset has at least one non-null value for the
pollutant, the aggregate block succeeds; the independently computed extremal
aggregates coincide with the values at the extremal rows (nanmax with the row
at argmax, nanmin with the row at argmin), all four matching the maximum and
minimum over the non-null column values; and each located extremal index is
the first index of the frame attaining that extremum, so ties break to the
first occurrence in iteration order. -/
theorem aggregate_extremes_agree (df : List Row) (p : String)
    (h : validValues df p ≠ []) :
    ∃ res : AggregateResult, aggregate df p = Except.ok res ∧
      res.worst_case_value = res.worst_value ∧
      res.best_case_value = res.best_value ∧
      res.worst_case_value = (validValues df p).max? ∧
      res.best_case_value = (validValues df p).min? ∧
      (∃ i, ∃ hi : i < df.length,
        idxmax df p = Except.ok (some i) ∧
        colValue p (df.get ⟨i, hi⟩) = (validValues df p).max? ∧
        ∀ j, ∀ hj : j < df.length, j < i →
          colValue p (df.get ⟨j, hj⟩) ≠ (validValues df p).max?) ∧
      (∃ i, ∃ hi : i < df.length,
        idxmin df p = Except.ok (some i) ∧
        colValue p (df.get ⟨i, hi⟩) = (validValues df p).min? ∧
        ∀ j, ∀ hj : j < df.length, j < i →
          colValue p (df.get ⟨j, hj⟩) ≠ (validValues df p).min?) := by
  have hdf : df ≠ [] := by
    intro e
    apply h
    rw [e]
    rfl
  have hne : df.isEmpty = false := List.isEmpty_eq_false.mpr hdf
  obtain ⟨m, hm⟩ : ∃ m, (validValues df p).max? = some m := by
    cases hmm : (validValues df p).max? with
    | none => exact absurd (List.max?_eq_none_iff.mp hmm) h
    | some m => exact ⟨m, rfl⟩
  obtain ⟨n, hn⟩ : ∃ n, (validValues df p).min? = some n := by
    cases hmm : (validValues df p).min? with
    | none => exact absurd (List.min?_eq_none_iff.mp hmm) h
    | some n => exact ⟨n, rfl⟩
  have hmem : m ∈ validValues df p := List.max?_mem max_choice hm
  have hmen : n ∈ validValues df p := List.min?_mem min_choice hn
  simp only [validValues] at hmem hmen
  obtain ⟨r, hr, hrv⟩ := List.mem_filterMap.mp hmem
  obtain ⟨r2, hr2, hrv2⟩ := List.mem_filterMap.mp hmen
  have hex : ∃ x ∈ df, (fun rr => colValue p rr == some m) x = true :=
    ⟨r, hr, by simp [hrv]⟩
  have hex2 : ∃ x ∈ df, (fun rr => colValue p rr == some n) x = true :=
    ⟨r2, hr2, by simp [hrv2]⟩
  have hi : df.findIdx (fun rr => colValue p rr == some m) < df.length :=
    List.findIdx_lt_length_of_exists hex
  have hi2 : df.findIdx (fun rr => colValue p rr == some n) < df.length :=
    List.findIdx_lt_length_of_exists hex2
  have himax : idxmax df p =
      Except.ok (some (df.findIdx (fun rr => colValue p rr == some m))) := by
    unfold idxmax
    rw [hne, hm]
    rfl
  have himin : idxmin df p =
      Except.ok (some (df.findIdx (fun rr => colValue p rr == some n))) := by
    unfold idxmin
    rw [hne, hn]
    rfl
  have hnmax : nanmax df p = Except.ok ((validValues df p).max?) := by
    unfold nanmax
    rw [hne]
    rfl
  have hnmin : nanmin df p = Except.ok ((validValues df p).min?) := by
    unfold nanmin
    rw [hne]
    rfl
  have hvmax : colValue p
      (df.get ⟨df.findIdx (fun rr => colValue p rr == some m), hi⟩) = some m := by
    have hptrue := @List.findIdx_getElem _ (fun rr => colValue p rr == some m)
      df hi
    simpa [beq_iff_eq] using hptrue
  have hvmin : colValue p
      (df.get ⟨df.findIdx (fun rr => colValue p rr == some n), hi2⟩) = some n := by
    have hptrue := @List.findIdx_getElem _ (fun rr => colValue p rr == some n)
      df hi2
    simpa [beq_iff_eq] using hptrue
  have hrowmax : rowAt df p
      (some (df.findIdx (fun rr => colValue p rr == some m))) =
      (some (df.get ⟨df.findIdx (fun rr => colValue p rr == some m), hi⟩).country_name,
       colValue p (df.get ⟨df.findIdx (fun rr => colValue p rr == some m), hi⟩),
       some (df.get ⟨df.findIdx (fun rr => colValue p rr == some m), hi⟩).year) := by
    simp only [rowAt]
    rw [List.getElem?_eq_getElem hi]
    rfl
  have hrowmin : rowAt df p
      (some (df.findIdx (fun rr => colValue p rr == some n))) =
      (some (df.get ⟨df.findIdx (fun rr => colValue p rr == some n), hi2⟩).country_name,
       colValue p (df.get ⟨df.findIdx (fun rr => colValue p rr == some n), hi2⟩),
       some (df.get ⟨df.findIdx (fun rr => colValue p rr == some n), hi2⟩).year) := by
    simp only [rowAt]
    rw [List.getElem?_eq_getElem hi2]
    rfl
  have hagg : aggregate df p = Except.ok
      { annual_mean := annual_mean df p
        pct_exceed := pct_exceed df p
        worst_country := (rowAt df p
          (some (df.findIdx (fun rr => colValue p rr == some m)))).1
        worst_value := (rowAt df p
          (some (df.findIdx (fun rr => colValue p rr == some m)))).2.1
        worst_year := (rowAt df p
          (some (df.findIdx (fun rr => colValue p rr == some m)))).2.2
        best_country := (rowAt df p
          (some (df.findIdx (fun rr => colValue p rr == some n)))).1
        best_value := (rowAt df p
          (some (df.findIdx (fun rr => colValue p rr == some n)))).2.1
        best_year := (rowAt df p
          (some (df.findIdx (fun rr => colValue p rr == some n)))).2.2
        worst_case_value := (validValues df p).max?
        best_case_value := (validValues df p).min? } := by
    unfold aggregate
    rw [himax, himin, hnmax, hnmin]
    rfl
  refine ⟨_, hagg, ?_, ?_, rfl, rfl, ?_, ?_⟩
  · show (validValues df p).max? = (rowAt df p
      (some (df.findIdx (fun rr => colValue p rr == some m)))).2.1
    rw [hm, hrowmax, hvmax]
  · show (validValues df p).min? = (rowAt df p
      (some (df.findIdx (fun rr => colValue p rr == some n)))).2.1
    rw [hn, hrowmin, hvmin]
  · refine ⟨df.findIdx (fun rr => colValue p rr == some m), hi, himax, ?_, ?_⟩
    · rw [hvmax, hm]
    · intro j hj hlt heq
      have hfalse := List.not_of_lt_findIdx hlt
      rw [hm] at heq
      have : colValue p df[j] = some m := heq
      simp [this] at hfalse
  · refine ⟨df.findIdx (fun rr => colValue p rr == some n), hi2, himin, ?_, ?_⟩
    · rw [hvmin, hn]
    · intro j hj hlt heq
      have hfalse := List.not_of_lt_findIdx hlt
      rw [hn] at heq
      have : colValue p df[j] = some n := heq
      simp [this] at hfalse

/-- Witness for C6 on the sample frame: the aggregate succeeds and the
independently computed maximum agrees with the value at the worst row. -/
theorem aggregate_extremes_agree_w :
    ∃ res : AggregateResult,
      aggregate sampleRows "pm25_concentration" = Except.ok res ∧
      res.worst_case_value = res.worst_value := by
  obtain ⟨res, h1, h2, -⟩ :=
    aggregate_extremes_agree sampleRows "pm25_concentration" (by decide)
  exact ⟨res, h1, h2⟩

end AirQuality
